import Mathlib

/-!
Verification of the `ycf-dump` backup utility (`src/main.go`) against its
natural-language specification.

The development is a shallow embedding of the program:

* `DumpDir` (main.go lines 26-103) is embedded as a pure function over a
  filesystem tree model.  The outcomes of the OS calls performed for each
  node (`d.Info()`, `os.Readlink`, `os.Open`, `fs.ReadDir`) are recorded as
  per-node oracle fields of `EntryData`, since they are inputs from the
  environment.  The tar stream written to the sink is modelled as a list of
  header and content blocks; the sink itself (tar writer over gzip over the
  pipe) is modelled as error-free, so `io.Copy`/`WriteHeader` failures of
  the underlying writer are out of scope.
* `fs.WalkDir` semantics (descend on a nil callback result, second callback
  invocation carrying a `ReadDir` error, root handling) are embedded from
  the Go standard library source of `io/fs.WalkDir`.
* `tar.FileInfoHeader` is embedded from the Go standard library: the size
  field is the file size for regular files and 0 otherwise; character and
  block devices are collapsed into one `device` case.
* `Handler` (main.go lines 140-226) is embedded as a pure function of an
  environment record holding the outcomes of the external collaborators
  (cloud SDK build, secret fetch, storage client construction, upload,
  presigned-URL minting).  The response writer is modelled as a trace of
  header/status/body events.  The `%.3f`-formatted elapsed seconds of the
  `Server-Timing` header value is abstracted as an opaque string, since
  wall-clock time is not representable in the embedding.
* The two-task pipeline (errgroup + io.Pipe, main.go lines 169-204) is
  modelled by `runPipeline`: the producer result determines how the pipe is
  closed, and the upload observes either a clean end of stream or the
  producer error.  `errgroup.Wait` returns the first error in completion
  order; the embedding resolves that race deterministically in favour of
  the producer error, which is sound for the properties proved here (they
  only use whether the result is nil and which errors exist).
-/

namespace YcfDump

/-! ## Error model -/

/-- Sentinel errors of the Go `io/fs` / `os` packages as matched by
`errors.Is` in main.go, plus an `other` case for any remaining error. -/
inductive FsErr where
  | permission
  | notExist
  | other (msg : String)
deriving DecidableEq, Repr

/-- The message text of an `FsErr`, as `err.Error()` would print it. -/
def FsErr.message : FsErr → String
  | .permission => "permission denied"
  | .notExist => "file does not exist"
  | .other m => m

/-- A Go error value as produced by the program: a raw filesystem error, a
plain message, or a `fmt.Errorf("...: %w", err)` wrapping. -/
inductive GoErr where
  | fsErr (e : FsErr)
  | msg (s : String)
  | wrapped (s : String) (e : GoErr)
deriving DecidableEq, Repr

/-- The message text of a `GoErr`, as `err.Error()` would print it. -/
def GoErr.message : GoErr → String
  | .fsErr e => e.message
  | .msg s => s
  | .wrapped s e => s ++ ": " ++ e.message

/-! ## Filesystem and tar model -/

/-- File type, abstracting the type bits of `fs.FileMode`.  `device`
collapses character and block devices; `unknown` stands for any mode that
`tar.FileInfoHeader` rejects. -/
inductive FType where
  | regular
  | dir
  | symlink
  | socket
  | device
  | fifo
  | unknown
deriving DecidableEq, Repr

/-- The metadata returned by `d.Info()`: permission bits
(`Mode() & fs.ModePerm`), type bits, and size. -/
structure FileInfo where
  perm : Nat
  ftype : FType
  size : Nat
deriving DecidableEq, Repr

/-- Tar header type flags used by `tar.FileInfoHeader`. -/
inductive TypeFlag where
  | reg
  | dir
  | symlink
  | device
  | fifo
deriving DecidableEq, Repr

/-- The fields of a `tar.Header` that the program sets. -/
structure TarHeader where
  name : String
  mode : Nat
  size : Nat
  typeflag : TypeFlag
  linkname : String
deriving DecidableEq, Repr

/-- One block written to the archive stream: a serialized entry header, or
the content bytes copied right after a header. -/
inductive Out where
  | header (h : TarHeader)
  | content (bytes : List Nat)
deriving DecidableEq, Repr

/-- The headers occurring in a stream, in order. -/
def hdrsOf : List Out → List TarHeader
  | [] => []
  | Out.header h :: rest => h :: hdrsOf rest
  | Out.content _ :: rest => hdrsOf rest

/-- The content blocks occurring in a stream, in order. -/
def contentsOf : List Out → List (List Nat)
  | [] => []
  | Out.header _ :: rest => contentsOf rest
  | Out.content b :: rest => b :: contentsOf rest

/-- Embedding of `tar.FileInfoHeader` (Go standard library): the declared
size is the file size for regular files and 0 for every other type; the
link target is stored for symlinks; sockets and unknown modes are
rejected.  The `Name` field is left empty here because `DumpDir`
immediately overwrites it with the relative path (main.go line 70). -/
def fileInfoHeader (fi : FileInfo) (link : String) : Except GoErr TarHeader :=
  match fi.ftype with
  | .regular =>
      .ok { name := "", mode := fi.perm, size := fi.size, typeflag := .reg, linkname := "" }
  | .dir =>
      .ok { name := "", mode := fi.perm, size := 0, typeflag := .dir, linkname := "" }
  | .symlink =>
      .ok { name := "", mode := fi.perm, size := 0, typeflag := .symlink, linkname := link }
  | .socket => .error (GoErr.msg "archive/tar: sockets not supported")
  | .device =>
      .ok { name := "", mode := fi.perm, size := 0, typeflag := .device, linkname := "" }
  | .fifo =>
      .ok { name := "", mode := fi.perm, size := 0, typeflag := .fifo, linkname := "" }
  | .unknown => .error (GoErr.msg "archive/tar: unknown file mode")

/-! ## The DumpDir walk callback (main.go lines 30-96) -/

/-- `strings.HasPrefix` (Go standard library), embedded over the character
sequences of the strings; for the valid UTF-8 strings involved here this
agrees with Go's byte-wise comparison. -/
def strHasPfx (s pre : String) : Bool :=
  pre.toList.isPrefixOf s.toList

/-- The skip condition of main.go lines 31-34: relative path begins with
`dev/`, `proc/` or `sys/`, or is the root `"."`. -/
def skipPath (p : String) : Bool :=
  strHasPfx p "dev/" || strHasPfx p "proc/" || strHasPfx p "sys/" || p == "."

/-- Just the three virtual-tree prefixes, without the root case. -/
def virtPrefixed (p : String) : Bool :=
  strHasPfx p "dev/" || strHasPfx p "proc/" || strHasPfx p "sys/"

deriving instance DecidableEq for Except

/-- Per-node data as seen by one callback invocation: the base name and
`IsDir` flag of the `DirEntry`, and the outcomes of the OS calls the
callback may perform for this node (`d.Info()`, `os.Readlink`,
`os.Open`+read, and — when descending — `fs.ReadDir`). -/
structure EntryData where
  name : String
  isDir : Bool
  info : Except FsErr FileInfo
  readLink : Except FsErr String
  openRes : Except FsErr (List Nat)
  readDirErr : Option FsErr
deriving DecidableEq, Repr

/-- The symlink/socket switch of main.go lines 51-63: for a symlink, read
the target, substituting the literal text `"permission denied"` on a
permission failure and aborting on any other failure; skip sockets
(result `none`); otherwise the link target stays the zero value `""`. -/
def linkOf (fi : FileInfo) (rl : Except FsErr String) : Except GoErr (Option String) :=
  if fi.ftype == FType.symlink then
    match rl with
    | .ok t => .ok (some t)
    | .error err =>
        if err == FsErr.permission then .ok (some "permission denied")
        else .error (GoErr.wrapped "error reading link" (GoErr.fsErr err))
  else if fi.ftype == FType.socket then .ok none
  else .ok (some "")

/-- Main.go lines 65-95: build the tar header, force the relative path as
its name, zero the declared size unless the world-read bit `0004` is set,
write the header, and copy the content bytes exactly for world-readable
regular files, aborting if the open fails. -/
def writeEntry (p : String) (fi : FileInfo) (link : String)
    (openRes : Except FsErr (List Nat)) : List Out × Option GoErr :=
  match fileInfoHeader fi link with
  | .error g => ([], some (GoErr.wrapped "error generating tar header" g))
  | .ok hdr0 =>
      let fileReadable : Bool := fi.perm &&& 0o004 != 0
      let hdr : TarHeader :=
        if fileReadable then { hdr0 with name := p }
        else { hdr0 with name := p, size := 0 }
      if !(fi.ftype == FType.regular) || !fileReadable then
        ([Out.header hdr], none)
      else
        match openRes with
        | .error err => ([Out.header hdr], some (GoErr.wrapped "error reading file" (GoErr.fsErr err)))
        | .ok bytes => ([Out.header hdr, Out.content bytes], none)

/-- Main.go lines 42-95: retrieve the node metadata (continue silently on
`fs.ErrNotExist`, abort wrapped on any other failure), run the
symlink/socket switch, then emit the entry. -/
def dumpEntry (p : String) (e : EntryData) : List Out × Option GoErr :=
  match e.info with
  | .error err =>
      if err == FsErr.notExist then ([], none)
      else ([], some (GoErr.wrapped "error getting file info" (GoErr.fsErr err)))
  | .ok fi =>
      match linkOf fi e.readLink with
      | .error g => ([], some g)
      | .ok none => ([], none)
      | .ok (some link) => writeEntry p fi link e.openRes

/-- The walk callback of main.go lines 30-96, as a function from the
relative path, the per-node data and the walk error argument to the
stream blocks written and the error returned to `fs.WalkDir`. -/
def dumpCallback (p : String) (e : EntryData) (walkErr : Option FsErr) :
    List Out × Option GoErr :=
  if skipPath p then ([], none)
  else
    match walkErr with
    | some we =>
        if we == FsErr.permission then dumpEntry p e
        else ([], some (GoErr.fsErr we))
    | none => dumpEntry p e

/-! ## The directory walk (`fs.WalkDir`, Go standard library `io/fs`) -/

/-- A filesystem tree: the per-node data together with the list of entries
that `fs.ReadDir` returns for the node (meaningful only when `isDir`; on a
`ReadDir` failure the list holds whatever partial result was returned). -/
inductive FsTree where
  | mk (edata : EntryData) (children : List FsTree)

/-- The per-node data at the root of a subtree. -/
def FsTree.edata : FsTree → EntryData
  | .mk e _ => e

/-- The base name of the root of a subtree. -/
def FsTree.nameOf : FsTree → String
  | .mk e _ => e.name

/-- `path.Join` as used by the walk for clean single-component names:
joining onto the root `"."` drops it. -/
def pathJoin (a b : String) : String :=
  if a == "." then b else a ++ "/" ++ b

/-- The cumulative result of a walk: every path at which the callback was
invoked, the stream blocks written, and the error that ended the walk. -/
structure WalkRes where
  visited : List String
  out : List Out
  err : Option GoErr
deriving DecidableEq, Repr

mutual

/-- Embedding of `io/fs.walkDir`: invoke the callback with a nil error; on
a callback error or a non-directory stop here; otherwise read the
directory, reporting a `ReadDir` failure through a second callback
invocation carrying the error, and then walk the returned entries.  The
callback of main.go never returns `fs.SkipDir` or `fs.SkipAll`, so those
sentinel branches of the library code are unreachable and not modelled. -/
def walkTree (name : String) (t : FsTree) : WalkRes :=
  match t with
  | .mk e children =>
      let c1 := dumpCallback name e none
      match c1.2 with
      | some g => { visited := [name], out := c1.1, err := some g }
      | none =>
          if e.isDir then
            match e.readDirErr with
            | some rde =>
                let c2 := dumpCallback name e (some rde)
                match c2.2 with
                | some g => { visited := [name], out := c1.1 ++ c2.1, err := some g }
                | none =>
                    let rest := walkChildren name children
                    { visited := name :: rest.visited
                      out := c1.1 ++ c2.1 ++ rest.out
                      err := rest.err }
            | none =>
                let rest := walkChildren name children
                { visited := name :: rest.visited
                  out := c1.1 ++ rest.out
                  err := rest.err }
          else { visited := [name], out := c1.1, err := none }

/-- Walk the entries of a directory in order, stopping at the first
subtree whose walk ends in an error. -/
def walkChildren (parent : String) (cs : List FsTree) : WalkRes :=
  match cs with
  | [] => { visited := [], out := [], err := none }
  | c :: rest =>
      let r1 := walkTree (pathJoin parent c.nameOf) c
      match r1.err with
      | some _ => r1
      | none =>
          let r2 := walkChildren parent rest
          { visited := r1.visited ++ r2.visited
            out := r1.out ++ r2.out
            err := r2.err }

end

/-- Placeholder for the nil `DirEntry` that `fs.WalkDir` passes to the
callback when statting the root fails; the callback returns on the
`p == "."` check before touching it. -/
def nilEntry : EntryData :=
  { name := "", isDir := false, info := .error (.other "nil DirEntry")
    readLink := .error (.other "nil DirEntry")
    openRes := .error (.other "nil DirEntry"), readDirErr := none }

/-- Embedding of `io/fs.WalkDir`: stat the root; on failure invoke the
callback once on the root path with that error, otherwise walk the tree
from the root path `"."`. -/
def fsWalkDir (rootStat : Option FsErr) (t : FsTree) : WalkRes :=
  match rootStat with
  | some e =>
      let c := dumpCallback "." nilEntry (some e)
      { visited := ["."], out := c.1, err := c.2 }
  | none => walkTree "." t

/-- `DumpDir` (main.go lines 26-103): run the walk and wrap any walk error
as `error dumping dir`.  The final `archW.Close()` writes the tar trailer
into the sink, which the stream model does not track, and the sink is
modelled as error-free, so a clean walk yields a nil result. -/
def DumpDir (rootStat : Option FsErr) (t : FsTree) : WalkRes :=
  let w := fsWalkDir rootStat t
  match w.err with
  | some g => { w with err := some (GoErr.wrapped "error dumping dir" g) }
  | none => w

/-! ## gzip writer construction (Go standard library `compress/gzip`) -/

/-- `gzip.HuffmanOnly`. -/
def gzipHuffmanOnly : Int := -2

/-- `gzip.BestSpeed`. -/
def gzipBestSpeed : Int := 1

/-- `gzip.BestCompression`. -/
def gzipBestCompression : Int := 9

/-- The gzip writer object; only the level is relevant to the model. -/
structure GzipWriter where
  level : Int
deriving DecidableEq, Repr

/-- Embedding of `gzip.NewWriterLevel`: rejects a level outside
`[HuffmanOnly, BestCompression]`, otherwise returns a writer. -/
def gzipNewWriterLevel (level : Int) : Except GoErr GzipWriter :=
  if level < gzipHuffmanOnly || level > gzipBestCompression then
    .error (GoErr.msg ("gzip: invalid compression level: " ++ toString level))
  else .ok { level := level }

/-! ## The two-task pipeline (main.go lines 169-204) -/

/-- How the byte stream flowing through `io.Pipe` ends for the reader: a
clean end of stream after `pipeW.Close()`, or the error installed by
`pipeW.CloseWithError(err)`. -/
inductive StreamEnd where
  | eof
  | failed (e : GoErr)
deriving DecidableEq, Repr

/-- The close operations performed by the producer task, in order. -/
inductive CloseAct where
  | gzipClose
  | pipeClose
  | pipeCloseWithError (e : GoErr)
deriving DecidableEq, Repr

/-- The stored-object metadata returned by `PutObject`
(`minio.UploadInfo`); only the fields the handler reads are modelled. -/
structure UploadInfo where
  bucket : String
  key : String
deriving DecidableEq, Repr

/-- The upload task body: `s3client.PutObject` consumes the pipe reader as
an indeterminate-length stream.  It can only finish once the writer end is
closed: a clean end of stream yields the collaborator outcome `onClean`,
and a stream failed via `CloseWithError` makes the next read — and hence
`PutObject` — return that error, whatever bytes were already consumed. -/
def putObject (_bytes : List Nat) (se : StreamEnd)
    (onClean : Except GoErr UploadInfo) : Except GoErr UploadInfo :=
  match se with
  | .failed e => .error e
  | .eof => onClean

/-- One run of the errgroup of main.go lines 169-204.  `produceErr` is the
result of `DumpDir` inside the producer task, `bytes` the compressed bytes
it wrote into the pipe before finishing, `onClean` the storage
collaborator outcome for a fully delivered stream.  The producer always
closes the gzip writer first and then closes the pipe writer, carrying the
`DumpDir` error if there was one.  `errgroup.Wait` returns the first error
in completion order; the model resolves that race in favour of the
producer, which is sound for the properties proved here since a producer
failure also fails the upload with the same error. -/
structure PipelineRun where
  closeSeq : List CloseAct
  streamEnd : StreamEnd
  producerErr : Option GoErr
  uploadResult : Except GoErr UploadInfo
  waitErr : Option GoErr
deriving DecidableEq, Repr

/-- Run the pipeline; see `PipelineRun`. -/
def runPipeline (produceErr : Option GoErr) (bytes : List Nat)
    (onClean : Except GoErr UploadInfo) : PipelineRun :=
  let closeSeq := CloseAct.gzipClose ::
    (match produceErr with
     | some e => [CloseAct.pipeCloseWithError e]
     | none => [CloseAct.pipeClose])
  let se : StreamEnd :=
    match produceErr with
    | some e => .failed e
    | none => .eof
  let up := putObject bytes se onClean
  let upErr : Option GoErr :=
    match up with
    | .error e => some e
    | .ok _ => none
  { closeSeq := closeSeq, streamEnd := se, producerErr := produceErr
    uploadResult := up
    waitErr := match produceErr with
               | some e => some e
               | none => upErr }

/-! ## The request handler (main.go lines 140-226) -/

/-- One mutation of the HTTP response: setting a header, writing the
status line, or writing body text. -/
inductive REvent where
  | setHeader (k v : String)
  | writeStatus (code : Nat)
  | writeBody (s : String)
deriving DecidableEq, Repr

/-- `http.Error` (Go standard library `net/http`): set the plain-text
headers, write the status, then print the message followed by a
newline. -/
def httpError (msg : String) (code : Nat) : List REvent :=
  [REvent.setHeader "Content-Type" "text/plain; charset=utf-8",
   REvent.setHeader "X-Content-Type-Options" "nosniff",
   REvent.writeStatus code,
   REvent.writeBody (msg ++ "\n")]

/-- Go map indexing `m[k]` for the secrets map built by `getSecret`
(main.go lines 119-122): the entries are inserted in order, so a later
entry with the same key overwrites an earlier one, and a missing key
yields the zero value `""`. -/
def goMapGet (m : List (String × String)) (k : String) : String :=
  match m.reverse.find? (fun kv => kv.1 == k) with
  | some kv => kv.2
  | none => ""

/-- The storage client as constructed by `NewS3Client` (main.go lines
127-136): static credentials and the configured region. -/
structure S3Client where
  accessKey : String
  secretKey : String
  region : String
deriving DecidableEq, Repr

/-- `NewS3Client`: builds the minio client from the two credential strings
and the region; `fail` is the collaborator outcome of `minio.New`. -/
def NewS3Client (id secret region : String) (fail : Option GoErr) :
    Except GoErr S3Client :=
  match fail with
  | some e => .error e
  | none => .ok { accessKey := id, secretKey := secret, region := region }

/-- The environment of one request: collaborator outcomes and ambient
inputs.  `payloadEntries` is the list of (key, text value) pairs of the
Lockbox payload; `rootStat`/`tree` describe the filesystem walked by the
producer task; `durStr` is the `%.3f`-formatted elapsed seconds. -/
structure HandlerEnv where
  sdkBuild : Except GoErr Unit
  payloadEntries : Except GoErr (List (String × String))
  s3NewErr : Option GoErr
  region : String
  rootStat : Option FsErr
  tree : FsTree
  producedBytes : List Nat
  uploadOnClean : Except GoErr UploadInfo
  presign : UploadInfo → Except GoErr String
  durStr : String

/-- The observable result of one handler run: the response trace and, when
the handler reached the `NewS3Client` call, the credential pair it passed
there. -/
structure HandlerRun where
  events : List REvent
  s3Creds : Option (String × String)
deriving DecidableEq, Repr

/-- `Handler` (main.go lines 140-226): build the SDK, fetch the secrets,
construct the storage client from the `AWS_ACCESS_KEY` / `AWS_SECRET_KEY`
map values, run the produce/upload pipeline, set the `Server-Timing`
header, and answer with the pipeline error or with status 200 followed by
the presigned URL (or the minting failure message). -/
def Handler (env : HandlerEnv) : HandlerRun :=
  match env.sdkBuild with
  | .error _ => { events := httpError "can\x27t initalize sdk" 500, s3Creds := none }
  | .ok _ =>
    match env.payloadEntries with
    | .error _ => { events := httpError "can\x27t get secrets" 500, s3Creds := none }
    | .ok entries =>
      let accessKey := goMapGet entries "AWS_ACCESS_KEY"
      let secretKey := goMapGet entries "AWS_SECRET_KEY"
      match NewS3Client accessKey secretKey env.region env.s3NewErr with
      | .error _ =>
          { events := httpError "s3 unavailable" 500
            s3Creds := some (accessKey, secretKey) }
      | .ok _client =>
          let pr := runPipeline (DumpDir env.rootStat env.tree).err
            env.producedBytes env.uploadOnClean
          let timing := REvent.setHeader "Server-Timing" ("total;dur=" ++ env.durStr)
          match pr.waitErr with
          | some g =>
              { events := timing :: httpError g.message 500
                s3Creds := some (accessKey, secretKey) }
          | none =>
              let info : UploadInfo :=
                match pr.uploadResult with
                | .ok i => i
                | .error _ => { bucket := "", key := "" }
              let body : REvent :=
                match env.presign info with
                | .error g => .writeBody ("error generating presigned url: " ++ g.message)
                | .ok u => .writeBody (u ++ "\n")
              { events := [timing, REvent.writeStatus 200, body]
                s3Creds := some (accessKey, secretKey) }

/-! ## Concrete instances used by counterexamples and witnesses -/

/-- Recognizes the `Server-Timing` header event. -/
def isServerTimingHdr : REvent → Bool
  | .setHeader k _ => k == "Server-Timing"
  | _ => false

/-- A plain directory node with mode `0755`. -/
def dirE (nm : String) : EntryData :=
  { name := nm, isDir := true
    info := .ok { perm := 0o755, ftype := .dir, size := 4096 }
    readLink := .error (.other "not a symlink")
    openRes := .error (.other "not opened"), readDirErr := none }

/-- A tree whose `dev/` subtree has depth two: `dev/pts` is a directory
holding the device node `dev/pts/0`. -/
def devTree : FsTree :=
  .mk (dirE ".")
    [ .mk (dirE "dev")
        [ .mk (dirE "pts")
            [ .mk { name := "0", isDir := false
                    info := .ok { perm := 0o620, ftype := .device, size := 0 }
                    readLink := .error (.other "not a symlink")
                    openRes := .error (.other "not opened"), readDirErr := none } [] ] ] ]

/-- A node whose `d.Info()` fails with permission denied. -/
def statDeniedEntry : EntryData :=
  { name := "secret", isDir := false, info := .error .permission
    readLink := .error (.other "not a symlink")
    openRes := .error (.other "not opened"), readDirErr := none }

/-- A tree with one node whose `d.Info()` fails with permission denied. -/
def statDeniedTree : FsTree :=
  .mk (dirE ".") [.mk statDeniedEntry []]

/-- A tree with one world-readable regular file of size 5 whose
`os.Open` fails (a stat/open race). -/
def openFailTree : FsTree :=
  .mk (dirE ".")
    [ .mk { name := "a.txt", isDir := false
            info := .ok { perm := 0o644, ftype := .regular, size := 5 }
            readLink := .error (.other "not a symlink")
            openRes := .error (.other "open failed"), readDirErr := none } [] ]

/-- A bare root directory (walks to an empty archive with no error). -/
def rootOnlyTree : FsTree := .mk (dirE ".") []

/-- A symlink node pointing at `a.txt`. -/
def linkEntry : EntryData :=
  { name := "link", isDir := false
    info := .ok { perm := 0o777, ftype := .symlink, size := 5 }
    readLink := .ok "a.txt"
    openRes := .error (.other "not opened"), readDirErr := none }

/-- A regular file with mode `0640` (no world-read bit) of size 7. -/
def privFileEntry : EntryData :=
  { name := "hidden", isDir := false
    info := .ok { perm := 0o640, ftype := .regular, size := 7 }
    readLink := .error (.other "not a symlink")
    openRes := .ok [1, 2, 3, 4, 5, 6, 7], readDirErr := none }

/-- The header that `DumpDir` emits for a symlink node: size 0, the
relative path as name, and the stored link target. -/
def symlinkHdr (p : String) (perm : Nat) (link : String) : TarHeader :=
  { name := p, mode := perm, size := 0, typeflag := .symlink, linkname := link }

/-- A request environment in which every collaborator succeeds. -/
def baseEnv : HandlerEnv :=
  { sdkBuild := .ok ()
    payloadEntries := .ok [("AWS_ACCESS_KEY", "id"), ("AWS_SECRET_KEY", "sec")]
    s3NewErr := none, region := "ru-central1"
    rootStat := none, tree := rootOnlyTree
    producedBytes := [31, 139, 8]
    uploadOnClean := .ok { bucket := "bkt", key := "go/2026-10-11T00:00:00Z/dump.tar.gz" }
    presign := fun i => .ok ("https://storage.yandexcloud.net/" ++ i.bucket ++ "/" ++ i.key)
    durStr := "1.234" }

/-- The same environment but with the cloud SDK build failing. -/
def sdkFailEnv : HandlerEnv :=
  { baseEnv with sdkBuild := .error (.msg "iam unavailable") }

/-- The same environment but with URL minting failing. -/
def presignFailEnv : HandlerEnv :=
  { baseEnv with presign := fun _ => .error (.msg "presign refused") }

/-- The same environment but with a credential bundle that holds neither
`AWS_ACCESS_KEY` nor `AWS_SECRET_KEY`. -/
def noKeysEnv : HandlerEnv :=
  { baseEnv with payloadEntries := .ok [("OTHER_KEY", "v")] }

/-! ## Helper lemmas -/

/-- `hdrsOf` distributes over stream concatenation. -/
theorem hdrsOf_append (a b : List Out) :
    hdrsOf (a ++ b) = hdrsOf a ++ hdrsOf b := by
  induction a with
  | nil => rfl
  | cons x rest ih => cases x <;> simp [hdrsOf, ih]

/-- A path that fails the skip check is neither virtual-prefixed nor the
root. -/
theorem skip_false_virt {p : String} (h : skipPath p = false) :
    virtPrefixed p = false := by
  simp only [skipPath, Bool.or_eq_false_iff] at h
  simp [virtPrefixed, h.1.1.1, h.1.1.2, h.1.2]

/-- A virtual-prefixed path satisfies the skip check. -/
theorem virt_skip {p : String} (h : virtPrefixed p = true) :
    skipPath p = true := by
  simp only [virtPrefixed, Bool.or_eq_true] at h
  simp only [skipPath, Bool.or_eq_true]
  tauto

/-- Every header emitted by `writeEntry` carries the relative path as its
name. -/
theorem writeEntry_hdr_name (p : String) (fi : FileInfo) (link : String)
    (o : Except FsErr (List Nat)) :
    ∀ h ∈ hdrsOf (writeEntry p fi link o).1, h.name = p := by
  intro h hmem
  by_cases h4 : fi.perm &&& 0o004 = 0 <;>
  by_cases hreg : fi.ftype = FType.regular <;>
  rcases hh : fileInfoHeader fi link with g | hdr0 <;>
  rcases ho : o with err | bytes <;>
  simp [writeEntry, hh, ho, h4, hreg, hdrsOf] at hmem <;>
  simp [hmem]

/-- Every header emitted by the walk callback carries the relative path as
its name, and the path passed the skip check. -/
theorem callback_hdr_name (p : String) (e : EntryData) (w : Option FsErr) :
    ∀ h ∈ hdrsOf (dumpCallback p e w).1, skipPath p = false ∧ h.name = p := by
  intro h hmem
  by_cases hsp : skipPath p = true
  · simp [dumpCallback, hsp, hdrsOf] at hmem
  · have hsp' : skipPath p = false := by simpa using hsp
    refine ⟨hsp', ?_⟩
    have hbody : ∀ h ∈ hdrsOf (dumpEntry p e).1, h.name = p := by
      intro h hmem
      unfold dumpEntry at hmem
      rcases hi : e.info with err | fi
      · simp [hi] at hmem
        split at hmem <;> simp [hdrsOf] at hmem
      · simp [hi] at hmem
        rcases hl : linkOf fi e.readLink with g | ol
        · simp [hl, hdrsOf] at hmem
        · rcases ol with _ | link <;> simp [hl, hdrsOf] at hmem
          exact writeEntry_hdr_name p fi link e.openRes h hmem
    unfold dumpCallback at hmem
    simp [hsp'] at hmem
    rcases w with _ | we
    · exact hbody h hmem
    · by_cases hwe : we = FsErr.permission <;> simp [hwe, hdrsOf] at hmem
      exact hbody h hmem

/-- Every header emitted by a callback invocation has a name that is not
virtual-prefixed. -/
theorem callback_hdr_not_virt (p : String) (e : EntryData) (w : Option FsErr) :
    ∀ h ∈ hdrsOf (dumpCallback p e w).1, virtPrefixed h.name = false := by
  intro h hm
  obtain ⟨hskip, hname⟩ := callback_hdr_name p e w h hm
  rw [hname]
  exact skip_false_virt hskip

/-- No header anywhere in the stream of a walk has a virtual-prefixed
name; proved by strong induction on the tree size, for the tree walk and
the child-list walk simultaneously. -/
theorem walk_hdr_not_virt : ∀ n : Nat,
    (∀ t : FsTree, sizeOf t ≤ n → ∀ name : String,
      ∀ h ∈ hdrsOf (walkTree name t).out, virtPrefixed h.name = false)
    ∧ (∀ cs : List FsTree, sizeOf cs ≤ n → ∀ parent : String,
      ∀ h ∈ hdrsOf (walkChildren parent cs).out, virtPrefixed h.name = false) := by
  intro n
  induction n using Nat.strong_induction_on with
  | _ n ih =>
    constructor
    · intro t hsz name h hmem
      rcases t with ⟨e, children⟩
      have hlt : sizeOf children < n := by
        have hs : sizeOf (FsTree.mk e children) = 1 + sizeOf e + sizeOf children := by
          simp
        omega
      unfold walkTree at hmem
      rcases hc1 : (dumpCallback name e none).2 with _ | g <;>
        simp only [hc1] at hmem
      · by_cases hd : e.isDir = true
        · simp only [hd, if_true] at hmem
          rcases hrd : e.readDirErr with _ | rde <;> simp only [hrd] at hmem
          · simp only [hdrsOf_append, List.mem_append] at hmem
            rcases hmem with hmem | hmem
            · exact callback_hdr_not_virt name e none h hmem
            · exact (ih (sizeOf children) hlt).2 children le_rfl name h hmem
          · rcases hc2 : (dumpCallback name e (some rde)).2 with _ | g <;>
              simp only [hc2, hdrsOf_append, List.mem_append] at hmem
            · rcases hmem with (hmem | hmem) | hmem
              · exact callback_hdr_not_virt name e none h hmem
              · exact callback_hdr_not_virt name e (some rde) h hmem
              · exact (ih (sizeOf children) hlt).2 children le_rfl name h hmem
            · rcases hmem with hmem | hmem
              · exact callback_hdr_not_virt name e none h hmem
              · exact callback_hdr_not_virt name e (some rde) h hmem
        · simp only [Bool.not_eq_true] at hd
          simp only [hd, Bool.false_eq_true, if_false] at hmem
          exact callback_hdr_not_virt name e none h hmem
      · exact callback_hdr_not_virt name e none h hmem
    · intro cs hsz parent h hmem
      rcases cs with _ | ⟨c, rest⟩
      · simp [walkChildren, hdrsOf] at hmem
      · have hltc : sizeOf c < n := by
          have hs : sizeOf (c :: rest) = 1 + sizeOf c + sizeOf rest := by simp
          omega
        have hltr : sizeOf rest < n := by
          have hs : sizeOf (c :: rest) = 1 + sizeOf c + sizeOf rest := by simp
          omega
        unfold walkChildren at hmem
        rcases hr : (walkTree (pathJoin parent c.nameOf) c).err with _ | g <;>
          simp only [hr, hdrsOf_append, List.mem_append] at hmem
        · rcases hmem with hmem | hmem
          · exact (ih (sizeOf c) hltc).1 c le_rfl (pathJoin parent c.nameOf) h hmem
          · exact (ih (sizeOf rest) hltr).2 rest le_rfl parent h hmem
        · exact (ih (sizeOf c) hltc).1 c le_rfl (pathJoin parent c.nameOf) h hmem

/-- The stream written by `DumpDir` is the stream of the walk. -/
theorem DumpDir_out (rootStat : Option FsErr) (t : FsTree) :
    (DumpDir rootStat t).out = (fsWalkDir rootStat t).out := by
  unfold DumpDir
  rcases h : (fsWalkDir rootStat t).err <;> simp [h]

/-! ## Claim theorems -/

/-- C1 counterexample: in `devTree`, the node `dev/pts` has a
virtual-prefixed relative path, yet its child `dev/pts/0` IS visited by
the walk — the callback returns nil (not `fs.SkipDir`) for such paths, so
`fs.WalkDir` still descends into them.  This falsifies the claim that such
nodes are not descended into. -/
theorem c1_counterexample :
    virtPrefixed "dev/pts" = true
    ∧ "dev/pts/0" ∈ (DumpDir none devTree).visited
    ∧ (DumpDir none devTree).visited = [".", "dev", "dev/pts", "dev/pts/0"]
    ∧ (DumpDir none devTree).out =
        [Out.header { name := "dev", mode := 0o755, size := 0, typeflag := .dir, linkname := "" }]
    ∧ (DumpDir none devTree).err = none := by
  refine ⟨by decide, by decide, by decide, by decide, by decide⟩

/-- C1 (amended): every callback invocation on a path beginning with
`dev/`, `proc/` or `sys/` writes nothing to the stream and returns nil,
and consequently no header anywhere in the stream written by `DumpDir`,
over any filesystem tree, bears such a path.  The walk does, however,
still descend into those subtrees (see the counterexample); every
descendant likewise produces zero entries since its path bears the same
prefix. -/
theorem c1_amended_zero_entries :
    (∀ (p : String) (e : EntryData) (w : Option FsErr),
      virtPrefixed p = true → dumpCallback p e w = ([], none))
    ∧ (∀ (rootStat : Option FsErr) (t : FsTree),
      ∀ h ∈ hdrsOf (DumpDir rootStat t).out, virtPrefixed h.name = false) := by
  constructor
  · intro p e w hp
    simp [dumpCallback, virt_skip hp]
  · intro rootStat t h hmem
    rw [DumpDir_out] at hmem
    rcases rootStat with _ | fe <;> simp only [fsWalkDir] at hmem
    · exact (walk_hdr_not_virt (sizeOf t)).1 t le_rfl "." h hmem
    · exact callback_hdr_not_virt "." nilEntry (some fe) h hmem

/-- C1 witness: the amended theorem applied at concrete inputs. -/
theorem c1_amended_zero_entries_witness :
    (virtPrefixed "dev/null" = true
      ∧ dumpCallback "dev/null" linkEntry none = ([], none))
    ∧ virtPrefixed "dev" = false :=
  ⟨⟨by decide, c1_amended_zero_entries.1 "dev/null" linkEntry none (by decide)⟩,
   c1_amended_zero_entries.2 none devTree
     { name := "dev", mode := 0o755, size := 0, typeflag := .dir, linkname := "" }
     (by decide)⟩

/-- C4 counterexample: a node whose `d.Info()` fails with permission
denied ABORTS the whole walk with a wrapped error — it is not logged and
continued as the claim states.  Only the walk error argument (a `ReadDir`
or root-stat failure reported by `fs.WalkDir`) tolerates permission
denied. -/
theorem c4_counterexample :
    (DumpDir none statDeniedTree).err =
      some (GoErr.wrapped "error dumping dir"
        (GoErr.wrapped "error getting file info" (GoErr.fsErr FsErr.permission)))
    ∧ (DumpDir none statDeniedTree).out = [] := by
  refine ⟨by decide, by decide⟩

/-- C4 (amended): a permission-denied WALK error (the error argument
`fs.WalkDir` passes for a node, e.g. a `ReadDir` failure) is tolerated —
the callback behaves exactly as with no error, and without logging; any
other walk error aborts.  A does-not-exist failure of `d.Info()` logs and
continues with no entry; any other `d.Info()` failure — including
permission denied — aborts with a wrapped error, and `DumpDir` wraps any
abort error as `error dumping dir`. -/
theorem c4_amended_metadata_errors :
    (∀ (p : String) (e : EntryData),
      dumpCallback p e (some FsErr.permission) = dumpCallback p e none)
    ∧ (∀ (p : String) (e : EntryData) (we : FsErr), skipPath p = false →
      we ≠ FsErr.permission →
      dumpCallback p e (some we) = ([], some (GoErr.fsErr we)))
    ∧ (∀ (p : String) (e : EntryData) (w : Option FsErr), skipPath p = false →
      (w = none ∨ w = some FsErr.permission) →
      e.info = Except.error FsErr.notExist →
      dumpCallback p e w = ([], none))
    ∧ (∀ (p : String) (e : EntryData) (w : Option FsErr) (er : FsErr),
      skipPath p = false → (w = none ∨ w = some FsErr.permission) →
      e.info = Except.error er → er ≠ FsErr.notExist →
      dumpCallback p e w = ([], some (GoErr.wrapped "error getting file info" (GoErr.fsErr er))))
    ∧ (∀ (rootStat : Option FsErr) (t : FsTree) (g : GoErr),
      (fsWalkDir rootStat t).err = some g →
      (DumpDir rootStat t).err = some (GoErr.wrapped "error dumping dir" g)) := by
  refine ⟨?_, ?_, ?_, ?_, ?_⟩
  · intro p e
    by_cases hsp : skipPath p = true <;> simp [dumpCallback, hsp]
  · intro p e we hsp hne
    simp [dumpCallback, hsp, hne]
  · intro p e w hsp hw hinfo
    rcases hw with h | h <;> subst h <;> simp [dumpCallback, hsp, dumpEntry, hinfo]
  · intro p e w er hsp hw hinfo hne
    rcases hw with h | h <;> subst h <;> simp [dumpCallback, hsp, dumpEntry, hinfo, hne]
  · intro rootStat t g hg
    simp [DumpDir, hg]

/-- C4 witness: the amended theorem applied at concrete inputs. -/
theorem c4_amended_metadata_errors_witness :
    skipPath "etc/fstab" = false
    ∧ FsErr.permission ≠ FsErr.notExist
    ∧ dumpCallback "etc/fstab" statDeniedEntry none =
        ([], some (GoErr.wrapped "error getting file info" (GoErr.fsErr FsErr.permission))) :=
  ⟨by decide, by decide,
   c4_amended_metadata_errors.2.2.2.1 "etc/fstab" statDeniedEntry none FsErr.permission
     (by decide) (Or.inl rfl) (by decide) (by decide)⟩

/-- C9 (confirmed): the callback returns nil for any path that is
virtual-prefixed or the root before the walk error argument is examined,
so no error reported there — of any kind — can abort the walk. -/
theorem c9_skip_before_error (p : String) (e : EntryData) (w : Option FsErr)
    (hp : virtPrefixed p = true ∨ p = ".") :
    dumpCallback p e w = ([], none) := by
  have hs : skipPath p = true := by
    rcases hp with h | h
    · exact virt_skip h
    · simp [skipPath, h]
  simp [dumpCallback, hs]

/-- C9 witness: a non-permission walk error under `proc/` is swallowed. -/
theorem c9_skip_before_error_witness :
    (virtPrefixed "proc/1/mem" = true ∨ "proc/1/mem" = ".")
    ∧ dumpCallback "proc/1/mem" nilEntry (some (FsErr.other "input output error")) =
        ([], none) :=
  ⟨Or.inl (by decide),
   c9_skip_before_error "proc/1/mem" nilEntry (some (FsErr.other "input output error"))
     (Or.inl (by decide))⟩

/-- C10 (confirmed): `gzip.BestSpeed` lies inside the valid level range,
so `gzip.NewWriterLevel(pipeW, gzip.BestSpeed)` returns a nil error and a
usable writer; the discarded error is always nil. -/
theorem c10_gzip_level_valid :
    gzipNewWriterLevel gzipBestSpeed = Except.ok { level := gzipBestSpeed }
    ∧ gzipHuffmanOnly ≤ gzipBestSpeed ∧ gzipBestSpeed ≤ gzipBestCompression := by
  refine ⟨by decide, by decide, by decide⟩

/-- C6 (confirmed): if the producer fails, regardless of how many bytes it
already pushed into the pipe, the gzip writer is closed first, the pipe
writer is closed carrying the error, the upload observes that error, and
`errgroup.Wait` is non-nil; if the producer succeeds, the pipe is closed
cleanly, the upload sees end-of-stream, and the pipeline result is the
upload collaborator's success value with no error. -/
theorem c6_pipeline_error_propagation (g : GoErr) (bytes : List Nat)
    (onClean : Except GoErr UploadInfo) (info : UploadInfo) :
    (runPipeline (some g) bytes onClean).closeSeq =
        [CloseAct.gzipClose, CloseAct.pipeCloseWithError g]
    ∧ (runPipeline (some g) bytes onClean).uploadResult = Except.error g
    ∧ (runPipeline (some g) bytes onClean).waitErr = some g
    ∧ (runPipeline none bytes (Except.ok info)).closeSeq =
        [CloseAct.gzipClose, CloseAct.pipeClose]
    ∧ (runPipeline none bytes (Except.ok info)).streamEnd = StreamEnd.eof
    ∧ (runPipeline none bytes (Except.ok info)).uploadResult = Except.ok info
    ∧ (runPipeline none bytes (Except.ok info)).waitErr = none := by
  refine ⟨rfl, rfl, rfl, rfl, rfl, rfl, rfl⟩

/-- C5 (confirmed): for a symlink node that produces an entry, the stored
link target equals the filesystem target; a permission-denied readlink is
replaced by the literal text `"permission denied"` and the walk continues;
any other readlink error aborts the walk with a wrapped error. -/
theorem c5_symlink_target (p : String) (e : EntryData) (w : Option FsErr) (fi : FileInfo)
    (hp : skipPath p = false) (hw : w = none ∨ w = some FsErr.permission)
    (hi : e.info = Except.ok fi) (hs : fi.ftype = FType.symlink) :
    (∀ t, e.readLink = Except.ok t →
      dumpCallback p e w = ([Out.header (symlinkHdr p fi.perm t)], none))
    ∧ (e.readLink = Except.error FsErr.permission →
      dumpCallback p e w = ([Out.header (symlinkHdr p fi.perm "permission denied")], none))
    ∧ (∀ er, e.readLink = Except.error er → er ≠ FsErr.permission →
      dumpCallback p e w = ([], some (GoErr.wrapped "error reading link" (GoErr.fsErr er)))) := by
  have hbody : dumpCallback p e w = dumpEntry p e := by
    rcases hw with h | h <;> subst h <;> simp [dumpCallback, hp]
  refine ⟨?_, ?_, ?_⟩
  · intro t ht
    rw [hbody]
    simp [dumpEntry, hi, linkOf, hs, ht, writeEntry, fileInfoHeader]
    by_cases h4 : fi.perm &&& 4 = 0 <;> simp [h4, symlinkHdr]
  · intro ht
    rw [hbody]
    simp [dumpEntry, hi, linkOf, hs, ht, writeEntry, fileInfoHeader]
    by_cases h4 : fi.perm &&& 4 = 0 <;> simp [h4, symlinkHdr]
  · intro er ht hne
    rw [hbody]
    simp [dumpEntry, hi, linkOf, hs, ht, hne]

/-- C5 witness: the theorem applied to a concrete symlink node whose
target reads back as `a.txt`. -/
theorem c5_symlink_target_witness :
    skipPath "link" = false
    ∧ dumpCallback "link" linkEntry none =
        ([Out.header (symlinkHdr "link" 0o777 "a.txt")], none) :=
  ⟨by decide,
   (c5_symlink_target "link" linkEntry none
       { perm := 0o777, ftype := .symlink, size := 5 }
       (by decide) (Or.inl rfl) (by decide) (by decide)).1 "a.txt" (by decide)⟩

/-- C3 counterexample: on a world-readable regular file whose `os.Open`
fails after a successful stat, the stream already holds the entry header
with the file's true size 5 — not 0 — and no content bytes follow; the
node IS a regular file with the world-read bit, so both the "exactly
when" characterization and the content-copied iff of the claim fail on
this run (the walk then aborts). -/
theorem c3_counterexample :
    hdrsOf (DumpDir none openFailTree).out =
      [{ name := "a.txt", mode := 0o644, size := 5, typeflag := .reg, linkname := "" }]
    ∧ contentsOf (DumpDir none openFailTree).out = []
    ∧ (DumpDir none openFailTree).err =
        some (GoErr.wrapped "error dumping dir"
          (GoErr.wrapped "error reading file" (GoErr.fsErr (FsErr.other "open failed")))) := by
  refine ⟨by decide, by decide, by decide⟩

/-- C3 (amended): restricted to callback invocations that complete
without aborting the walk, the claim holds: content bytes follow the
header exactly when the node is a regular file with the world/other read
bit `0004`, and whenever no content follows, the header was written with
declared size 0 (the size is zeroed before the header is serialized).
If opening a world-readable regular file fails, the header with the true
size has already been written with no content, and the walk aborts. -/
theorem c3_amended_size_invariant (p : String) (e : EntryData) (w : Option FsErr)
    (fi : FileInfo) (h : TarHeader)
    (hi : e.info = Except.ok fi) (hok : (dumpCallback p e w).2 = none)
    (hmem : h ∈ hdrsOf (dumpCallback p e w).1) :
    (contentsOf (dumpCallback p e w).1 ≠ [] ↔
      (fi.ftype = FType.regular ∧ fi.perm &&& 0o004 ≠ 0))
    ∧ (contentsOf (dumpCallback p e w).1 = [] → h.size = 0) := by
  by_cases hsp : skipPath p = true
  · simp [dumpCallback, hsp, hdrsOf] at hmem
  · have hsp' : skipPath p = false := by simpa using hsp
    have hred : dumpCallback p e w = dumpEntry p e ∨ (dumpCallback p e w).2 ≠ none := by
      rcases w with _ | we
      · left; simp [dumpCallback, hsp']
      · by_cases hwe : we = FsErr.permission
        · left; subst hwe; simp [dumpCallback, hsp']
        · right; simp [dumpCallback, hsp', hwe]
    rcases hred with hbody | hne
    swap
    · exact absurd hok hne
    rw [hbody] at hok hmem ⊢
    rcases hft : fi.ftype <;>
      by_cases h4 : fi.perm &&& 0o004 = 0 <;>
      rcases hrl : e.readLink with lerr | t <;>
      rcases ho : e.openRes with oerr | bytes <;>
      try rcases lerr
    all_goals simp_all [dumpEntry, linkOf, writeEntry, fileInfoHeader, hdrsOf, contentsOf]

/-- C3 witness: the amended theorem applied to a regular file with mode
`0640` (no world-read bit); its emitted header has declared size 0. -/
theorem c3_amended_size_invariant_witness :
    privFileEntry.info = Except.ok { perm := 0o640, ftype := .regular, size := 7 }
    ∧ (dumpCallback "hidden" privFileEntry none).2 = none
    ∧ (contentsOf (dumpCallback "hidden" privFileEntry none).1 = [] →
      ({ name := "hidden", mode := 0o640, size := 0, typeflag := .reg, linkname := "" } : TarHeader).size = 0) :=
  ⟨by decide, by decide,
   (c3_amended_size_invariant "hidden" privFileEntry none
       { perm := 0o640, ftype := .regular, size := 7 }
       { name := "hidden", mode := 0o640, size := 0, typeflag := .reg, linkname := "" }
       (by decide) (by decide) (by decide)).2⟩

/-- A Go map lookup on a key held by no entry yields the zero value. -/
theorem goMapGet_absent (m : List (String × String)) (k : String)
    (h : ∀ kv ∈ m, kv.1 ≠ k) : goMapGet m k = "" := by
  have hf : m.reverse.find? (fun kv => kv.1 == k) = none := by
    rw [List.find?_eq_none]
    intro kv hkv
    simpa using h kv (List.mem_reverse.mp hkv)
  simp [goMapGet, hf]

/-- C2 counterexample: when the cloud SDK build fails, the handler
responds (status 500 with a body) without ever setting the
`Server-Timing` header, contradicting the claim that the header is
present on the SDK-initialization-failure response. -/
theorem c2_counterexample :
    (Handler sdkFailEnv).events.any isServerTimingHdr = false
    ∧ (Handler sdkFailEnv).events ≠ [] := by
  refine ⟨by decide, by decide⟩

/-- C2 (amended): the `Server-Timing: total;dur=...` header is set, before
any status or body is written, on every request that reaches the pipeline
(SDK build, secret fetch and client construction all succeeded) — both on
pipeline failure and on success; on the three early failure responses the
header is never set. -/
theorem c2_amended_timing_header :
    (∀ (env : HandlerEnv) (entries : List (String × String)),
      env.sdkBuild = Except.ok () → env.payloadEntries = Except.ok entries →
      env.s3NewErr = none →
      ∃ rest, (Handler env).events =
        REvent.setHeader "Server-Timing" ("total;dur=" ++ env.durStr) :: rest)
    ∧ (∀ env : HandlerEnv,
      ((∃ g, env.sdkBuild = Except.error g) ∨ (∃ g, env.payloadEntries = Except.error g)
        ∨ (∃ g, env.s3NewErr = some g)) →
      (Handler env).events.any isServerTimingHdr = false) := by
  constructor
  · intro env entries hsdk hpay hs3
    simp only [Handler, hsdk, hpay, hs3, NewS3Client]
    rcases hw : (runPipeline (DumpDir env.rootStat env.tree).err
        env.producedBytes env.uploadOnClean).waitErr with _ | g <;>
      simp [hw]
  · intro env hdis
    rcases hdis with ⟨g, hg⟩ | ⟨g, hg⟩ | ⟨g, hg⟩
    · simp only [Handler, hg]
      decide
    · rcases hsdk : env.sdkBuild with g0 | u
      · simp only [Handler, hsdk]
        decide
      · simp only [Handler, hsdk, hg]
        decide
    · rcases hsdk : env.sdkBuild with g0 | u
      · simp only [Handler, hsdk]
        decide
      · rcases hpay : env.payloadEntries with g1 | entries
        · simp only [Handler, hsdk, hpay]
          decide
        · simp only [Handler, hsdk, hpay, hg, NewS3Client]
          decide

/-- C2 witness: the amended theorem applied to a fully successful request
environment and to one whose SDK build fails. -/
theorem c2_amended_timing_header_witness :
    (Handler baseEnv).events.head? =
      some (REvent.setHeader "Server-Timing" "total;dur=1.234")
    ∧ (Handler sdkFailEnv).events.any isServerTimingHdr = false := by
  constructor
  · obtain ⟨rest, hr⟩ := c2_amended_timing_header.1 baseEnv
      [("AWS_ACCESS_KEY", "id"), ("AWS_SECRET_KEY", "sec")] rfl rfl rfl
    rw [hr]
    simp only [List.head?]
    decide
  · exact c2_amended_timing_header.2 sdkFailEnv (Or.inl ⟨GoErr.msg "iam unavailable", rfl⟩)

/-- C7 (confirmed): when the pipeline succeeds, the handler writes status
200 (after the timing header) and only then consults the URL minting
collaborator: on a minting failure the 200 response body is the failure
message, on success it is the presigned URL. -/
theorem c7_presign_after_200 (env : HandlerEnv) (entries : List (String × String))
    (info : UploadInfo)
    (hsdk : env.sdkBuild = Except.ok ()) (hpay : env.payloadEntries = Except.ok entries)
    (hs3 : env.s3NewErr = none)
    (hdump : (DumpDir env.rootStat env.tree).err = none)
    (hup : env.uploadOnClean = Except.ok info) :
    (∀ g, env.presign info = Except.error g →
      (Handler env).events =
        [REvent.setHeader "Server-Timing" ("total;dur=" ++ env.durStr),
         REvent.writeStatus 200,
         REvent.writeBody ("error generating presigned url: " ++ g.message)])
    ∧ (∀ u, env.presign info = Except.ok u →
      (Handler env).events =
        [REvent.setHeader "Server-Timing" ("total;dur=" ++ env.durStr),
         REvent.writeStatus 200,
         REvent.writeBody (u ++ "\n")]) := by
  constructor <;> intro x hx <;>
    simp [Handler, hsdk, hpay, hs3, NewS3Client, runPipeline, putObject, hdump, hup, hx]

/-- C7 witness: the theorem applied to an environment where minting
fails; the trace shows status 200 followed by the failure message. -/
theorem c7_presign_after_200_witness :
    (Handler presignFailEnv).events =
      [REvent.setHeader "Server-Timing" "total;dur=1.234",
       REvent.writeStatus 200,
       REvent.writeBody "error generating presigned url: presign refused"] := by
  have h := (c7_presign_after_200 presignFailEnv
      [("AWS_ACCESS_KEY", "id"), ("AWS_SECRET_KEY", "sec")]
      { bucket := "bkt", key := "go/2026-10-11T00:00:00Z/dump.tar.gz" }
      rfl rfl rfl (by decide) rfl).1 (GoErr.msg "presign refused") rfl
  rw [h]
  decide

/-- C8 (confirmed): the handler builds the storage client from the map
values at `AWS_ACCESS_KEY` and `AWS_SECRET_KEY` without any presence
check; an absent key contributes the empty string, and no distinct
missing-credential error exists in the handler. -/
theorem c8_missing_credential_keys (env : HandlerEnv) (entries : List (String × String))
    (hsdk : env.sdkBuild = Except.ok ()) (hpay : env.payloadEntries = Except.ok entries) :
    (Handler env).s3Creds =
      some (goMapGet entries "AWS_ACCESS_KEY", goMapGet entries "AWS_SECRET_KEY")
    ∧ ((∀ kv ∈ entries, kv.1 ≠ "AWS_ACCESS_KEY") → goMapGet entries "AWS_ACCESS_KEY" = "")
    ∧ ((∀ kv ∈ entries, kv.1 ≠ "AWS_SECRET_KEY") → goMapGet entries "AWS_SECRET_KEY" = "") := by
  refine ⟨?_, ?_, ?_⟩
  · rcases hs3 : env.s3NewErr with _ | g
    · simp only [Handler, hsdk, hpay, hs3, NewS3Client]
      rcases hw : (runPipeline (DumpDir env.rootStat env.tree).err
          env.producedBytes env.uploadOnClean).waitErr with _ | g2 <;> simp [hw]
    · simp [Handler, hsdk, hpay, hs3, NewS3Client]
  · intro habs
    exact goMapGet_absent entries _ habs
  · intro habs
    exact goMapGet_absent entries _ habs

/-- C8 witness: with a credential bundle holding neither key, the client
is constructed from two empty strings. -/
theorem c8_missing_credential_keys_witness :
    noKeysEnv.sdkBuild = Except.ok ()
    ∧ (Handler noKeysEnv).s3Creds = some ("", "") := by
  refine ⟨rfl, ?_⟩
  have h := (c8_missing_credential_keys noKeysEnv [("OTHER_KEY", "v")] rfl rfl).1
  rw [h]
  decide

end YcfDump
